import Mathlib

/-!
Shallow embedding of the view-sizing reconciliation logic of
AppLovin-MAX-React-Native, file src/AdView.tsx.

The embedding models:
- React Native style dimension values (number, percentage string, or the
  sentinel value auto for an unspecified dimension) as the inductive
  DimValue;
- the TypeScript type SizeRecord, a record with optional width and
  height fields, as a structure of two Option DimValue fields (an absent
  field and a field holding the JavaScript value undefined are both
  modelled as none, matching strict-equality comparisons against
  undefined in the source);
- the mutable refs and state of the AdView component (adFormatSize,
  isInitialized, sizeProps, dimensions, adViewRef) as the structure
  AdViewState, with the value none for dimensions standing for the
  initial empty object (the only state in which Object.keys of the
  dimensions ref has length zero, since every assignment in the source
  writes a two-key object literal);
- the asynchronous native queries as explicit parameters: the adaptive
  banner height service is a function from width to height, the tablet
  query result is an Option Bool (none while the query is outstanding),
  and a pending call of sizeBannerDimensions is reified as a
  BannerSizeRequest holding the arguments captured at issue time, whose
  eventual response is computed by bannerResponseSize and consumed by
  handleBannerResponse (the .then callback of the source);
- the body of the per-render sizing effect (source lines 204-227) as the
  pure step function sizingEffect, returning the updated state together
  with the action taken (skip, issue a banner sizing request, or update
  dimensions and notify the host via forceUpdate);
- the render body (source lines 257-292) as renderOutput, returning none
  where the source returns null and the dimensions passed to the native
  view otherwise;
- the imperative loadAd handle, saveElement, and the passthrough
  functions preloadNativeUIComponentAdView and
  destroyNativeUIComponentAdView, with the native module calls as
  function parameters returning Except values (a rejected promise is an
  error value).
-/

/-- A React Native dimension value: a pixel number, a percentage, or the
sentinel auto standing for an unspecified dimension (getOutlineViewSize
in the source maps a missing style field to auto). -/
inductive DimValue where
  | auto : DimValue
  | px : Int → DimValue
  | pct : Int → DimValue
deriving DecidableEq, Repr

/-- The TypeScript type SizeRecord from AdView.tsx: a record with
optional width and height dimension fields. -/
structure SizeRecord where
  width : Option DimValue := none
  height : Option DimValue := none
deriving DecidableEq, Repr

/-- A concrete pixel width and height pair, used for the ADVIEW_SIZE
constant table. -/
structure FixedSize where
  width : Int
  height : Int
deriving DecidableEq, Repr

/-- The three rows of the ADVIEW_SIZE constant. -/
structure AdviewSizeTable where
  banner : FixedSize
  leader : FixedSize
  mrec : FixedSize
deriving DecidableEq, Repr

/-- The ADVIEW_SIZE constant from AdView.tsx lines 77-81. -/
def ADVIEW_SIZE : AdviewSizeTable :=
  { banner := { width := 320, height := 50 },
    leader := { width := 728, height := 90 },
    mrec := { width := 300, height := 250 } }

/-- The ad formats supported by AdView: banner or MREC. -/
inductive AdFormat where
  | BANNER
  | MREC
deriving DecidableEq, Repr

/-- getOutlineViewSize from AdView.tsx lines 84-87: flattens the style
and substitutes auto for an unspecified width or height. -/
def getOutlineViewSize (styleWidth styleHeight : Option DimValue) : DimValue × DimValue :=
  (styleWidth.getD DimValue.auto, styleHeight.getD DimValue.auto)

/-- sizeBannerDimensions from AdView.tsx lines 89-108, with the native
adaptive-height service passed in as the function
getAdaptiveBannerHeightForWidth. An auto width is replaced by the screen
width; an auto height is replaced by the adaptive height queried AT THE
SCREEN WIDTH when adaptive banners are enabled, and by the height field
of the cached format-default record otherwise. -/
def sizeBannerDimensions (sizeProps : SizeRecord) (adaptiveBannerEnabled : Bool)
    (screenWidth : Int) (bannerFormatSize : SizeRecord)
    (getAdaptiveBannerHeightForWidth : Int → Int) : SizeRecord :=
  let width : Option DimValue :=
    if sizeProps.width = some DimValue.auto then some (DimValue.px screenWidth)
    else sizeProps.width
  let height : Option DimValue :=
    if sizeProps.height = some DimValue.auto then
      if adaptiveBannerEnabled then
        some (DimValue.px (getAdaptiveBannerHeightForWidth screenWidth))
      else bannerFormatSize.height
    else sizeProps.height
  { width := width, height := height }

/-- The MREC branch of the sizing effect, AdView.tsx lines 221-224: an
auto dimension is replaced by the corresponding field of the cached
format-default record. -/
def sizeMrecDimensions (w h : DimValue) (adFormatSize : SizeRecord) : SizeRecord :=
  { width := if w = DimValue.auto then adFormatSize.width else some w,
    height := if h = DimValue.auto then adFormatSize.height else some h }

/-- The value of the adFormatSize ref after the mount effect of
AdView.tsx lines 183-194 has run: for MREC it is set synchronously to
the MREC row of ADVIEW_SIZE; for BANNER it is set by the callback of the
asynchronous isTablet query (isTabletResult = none while the query is
still outstanding, in which case the ref keeps its initial empty
value). -/
def adFormatSizeAfterMount (adFormat : AdFormat) (isTabletResult : Option Bool) : SizeRecord :=
  match adFormat, isTabletResult with
  | AdFormat.BANNER, some true =>
      { width := some (DimValue.px ADVIEW_SIZE.leader.width),
        height := some (DimValue.px ADVIEW_SIZE.leader.height) }
  | AdFormat.BANNER, some false =>
      { width := some (DimValue.px ADVIEW_SIZE.banner.width),
        height := some (DimValue.px ADVIEW_SIZE.banner.height) }
  | AdFormat.BANNER, none => {}
  | AdFormat.MREC, _ =>
      { width := some (DimValue.px ADVIEW_SIZE.mrec.width),
        height := some (DimValue.px ADVIEW_SIZE.mrec.height) }

/-- The mutable state of one mounted AdView: the cached format-default
record, the initialization flag, the last requested size, the resolved
dimensions (none for the initial empty object), and the saved native
view reference. -/
structure AdViewState where
  adFormatSize : SizeRecord := {}
  initDone : Bool := false
  sizeProps : SizeRecord := {}
  dimensions : Option SizeRecord := none
  adViewRef : Option Nat := none
deriving DecidableEq, Repr

/-- The callback of the isInitialized query, AdView.tsx lines 196-201:
stores the result and reports (second component) whether the warning
about mounting before initialization was logged. -/
def handleInitResult (st : AdViewState) (result : Bool) : AdViewState × Bool :=
  ({ st with initDone := result }, !result)

/-- The arguments captured by a call of sizeBannerDimensions at the time
the sizing effect issues it (AdView.tsx line 214). -/
structure BannerSizeRequest where
  sizeProps : SizeRecord
  adaptiveBannerEnabled : Bool
  screenWidth : Int
  bannerFormatSize : SizeRecord
deriving DecidableEq, Repr

/-- The action taken by one run of the sizing effect: nothing (early
return), an asynchronous banner sizing request, or a synchronous MREC
dimensions update followed by forceUpdate. -/
inductive SizingOutcome where
  | skip : SizingOutcome
  | request : BannerSizeRequest → SizingOutcome
  | notifyHost : SizingOutcome
deriving DecidableEq, Repr

/-- The body of the per-render sizing effect, AdView.tsx lines 204-227:
return early unless initialized; return early when the style-derived
size equals the previously requested one; otherwise store the new
requested size and either issue a banner sizing request (BANNER) or
resolve against the cached format defaults, store the dimensions, and
force an update (MREC). -/
def sizingEffect (adFormat : AdFormat) (adaptiveBannerEnabled : Bool) (screenWidth : Int)
    (styleWidth styleHeight : Option DimValue) (st : AdViewState) :
    AdViewState × SizingOutcome :=
  if st.initDone then
    let wh := getOutlineViewSize styleWidth styleHeight
    if st.sizeProps.width = some wh.1 ∧ st.sizeProps.height = some wh.2 then
      (st, SizingOutcome.skip)
    else
      let newSizeProps : SizeRecord := { width := some wh.1, height := some wh.2 }
      match adFormat with
      | AdFormat.BANNER =>
          ({ st with sizeProps := newSizeProps },
           SizingOutcome.request
             { sizeProps := newSizeProps,
               adaptiveBannerEnabled := adaptiveBannerEnabled,
               screenWidth := screenWidth,
               bannerFormatSize := st.adFormatSize })
      | AdFormat.MREC =>
          ({ st with sizeProps := newSizeProps,
                     dimensions := some (sizeMrecDimensions wh.1 wh.2 st.adFormatSize) },
           SizingOutcome.notifyHost)
  else (st, SizingOutcome.skip)

/-- The size eventually delivered to the .then callback for a pending
banner sizing request: sizeBannerDimensions evaluated on the captured
arguments with the native adaptive-height service. -/
def bannerResponseSize (req : BannerSizeRequest)
    (getAdaptiveBannerHeightForWidth : Int → Int) : SizeRecord :=
  sizeBannerDimensions req.sizeProps req.adaptiveBannerEnabled req.screenWidth
    req.bannerFormatSize getAdaptiveBannerHeightForWidth

/-- The .then callback of the banner sizing request, AdView.tsx lines
214-219: compare the delivered size field by field against the stored
dimensions (reading a field of the initial empty object yields
undefined, modelled by Option.bind); when some field differs, store the
delivered size and force an update (second component true). The
callback runs like this for every delivered response: it inspects no
request identity and no mounted flag. -/
def handleBannerResponse (st : AdViewState) (adaptedSize : SizeRecord) :
    AdViewState × Bool :=
  if st.dimensions.bind SizeRecord.width ≠ adaptedSize.width ∨
     st.dimensions.bind SizeRecord.height ≠ adaptedSize.height then
    ({ st with dimensions := some adaptedSize }, true)
  else (st, false)

/-- The render body, AdView.tsx lines 257-292: null while not
initialized; null while the dimensions ref still holds the initial
empty object (Object.keys length zero); otherwise the native view is
rendered with the stored dimensions merged over the style. -/
def renderOutput (st : AdViewState) : Option SizeRecord :=
  if st.initDone then
    match st.dimensions with
    | none => none
    | some dims => some dims
  else none

/-- A view-manager command dispatched to the native view by node
handle. -/
inductive ViewManagerCommand where
  | loadAdCommand : Nat → ViewManagerCommand
deriving DecidableEq, Repr

/-- The imperative loadAd handle, AdView.tsx lines 164-173: when a
native view reference was saved, dispatch the loadAd view-manager
command to it; otherwise do nothing. The component state is returned
unchanged in both cases, matching the source, which touches no state
here. -/
def loadAd (st : AdViewState) : AdViewState × Option ViewManagerCommand :=
  match st.adViewRef with
  | some h => (st, some (ViewManagerCommand.loadAdCommand h))
  | none => (st, none)

/-- saveElement from AdView.tsx lines 177-181: store the element when it
is non-null, keep the previous reference otherwise. -/
def saveElement (st : AdViewState) (element : Option Nat) : AdViewState :=
  match element with
  | some e => { st with adViewRef := some e }
  | none => st

/-- The options record of preloadNativeUIComponentAdView. -/
structure NativeUIComponentAdViewOptions where
  placement : Option String := none
  customData : Option String := none
  extraParameters : Option (List (String × String)) := none
  localExtraParameters : Option (List (String × String)) := none

/-- preloadNativeUIComponentAdView from AdView.tsx lines 313-315: calls
the native module with the ad unit id, the format, and the four fields
of the optional options record (optional chaining on an absent record
yields undefined, modelled by Option.bind), returning the native result
as-is. -/
def preloadNativeUIComponentAdView
    (nativePreload : String → AdFormat → Option String → Option String →
      Option (List (String × String)) → Option (List (String × String)) →
      Except String Unit)
    (adUnitId : String) (adFormat : AdFormat)
    (options : Option NativeUIComponentAdViewOptions) : Except String Unit :=
  nativePreload adUnitId adFormat
    (options.bind NativeUIComponentAdViewOptions.placement)
    (options.bind NativeUIComponentAdViewOptions.customData)
    (options.bind NativeUIComponentAdViewOptions.extraParameters)
    (options.bind NativeUIComponentAdViewOptions.localExtraParameters)

/-- destroyNativeUIComponentAdView from AdView.tsx lines 325-327: calls
the native module with the ad unit id and returns the native result
as-is. -/
def destroyNativeUIComponentAdView (nativeDestroy : String → Except String Unit)
    (adUnitId : String) : Except String Unit :=
  nativeDestroy adUnitId

/-- C1: counterexample. With requested width 200 (a concrete value),
screen width 390, adaptive banners enabled, and height unspecified, the
resolved width is 200 but the resolved height is the adaptive-height
query evaluated at the screen width 390, not at the resolved width 200
(the query here is the identity function, so the two are
distinguishable). -/
theorem C1_counterexample :
    (sizeBannerDimensions { width := some (DimValue.px 200), height := some DimValue.auto }
        true 390 {} (fun w => w)).width = some (DimValue.px 200) ∧
    (sizeBannerDimensions { width := some (DimValue.px 200), height := some DimValue.auto }
        true 390 {} (fun w => w)).height = some (DimValue.px 390) ∧
    (some (DimValue.px 390) : Option DimValue) ≠ some (DimValue.px 200) := by
  refine ⟨rfl, rfl, ?_⟩
  decide

/-- C1 (amended): for every banner resolution with adaptive banners
enabled and requested height unspecified, the resolved height equals the
adaptive-height query applied to the screen width; this coincides with
the query at the resolved width exactly when the requested width is
unspecified, in which case the resolved width is the screen width. -/
theorem C1_adaptive_height_uses_screen_width (sizeProps : SizeRecord)
    (screenWidth : Int) (bannerFormatSize : SizeRecord) (q : Int → Int)
    (hh : sizeProps.height = some DimValue.auto) :
    (sizeBannerDimensions sizeProps true screenWidth bannerFormatSize q).height =
      some (DimValue.px (q screenWidth)) ∧
    (sizeProps.width = some DimValue.auto →
      (sizeBannerDimensions sizeProps true screenWidth bannerFormatSize q).width =
        some (DimValue.px screenWidth)) := by
  constructor
  · simp [sizeBannerDimensions, hh]
  · intro hw
    simp [sizeBannerDimensions, hw]

/-- C1 witness: the amended theorem evaluated at a fully unspecified
style on a 390-wide screen with the query that adds 7. -/
theorem C1_witness :
    (sizeBannerDimensions { width := some DimValue.auto, height := some DimValue.auto }
        true 390 {} (fun w => w + 7)).height = some (DimValue.px ((390 : Int) + 7)) ∧
    (sizeBannerDimensions { width := some DimValue.auto, height := some DimValue.auto }
        true 390 {} (fun w => w + 7)).width = some (DimValue.px 390) :=
  ⟨(C1_adaptive_height_uses_screen_width
      { width := some DimValue.auto, height := some DimValue.auto } 390 {} (fun w => w + 7) rfl).1,
   (C1_adaptive_height_uses_screen_width
      { width := some DimValue.auto, height := some DimValue.auto } 390 {} (fun w => w + 7) rfl).2 rfl⟩

/-- C2: when the requested width is unspecified, banner resolution
substitutes the current screen width (for every adaptive flag, format
default, and query), and the MREC branch substitutes the width field of
the MREC format default, which is 300, whatever the tablet query
answered (including not yet). -/
theorem C2_width_substitution (sizeProps : SizeRecord) (adaptive : Bool)
    (screenWidth : Int) (bannerFormatSize : SizeRecord) (q : Int → Int)
    (h : DimValue) (isTabletResult : Option Bool)
    (hw : sizeProps.width = some DimValue.auto) :
    (sizeBannerDimensions sizeProps adaptive screenWidth bannerFormatSize q).width =
      some (DimValue.px screenWidth) ∧
    (sizeMrecDimensions DimValue.auto h
        (adFormatSizeAfterMount AdFormat.MREC isTabletResult)).width =
      some (DimValue.px 300) := by
  constructor
  · simp [sizeBannerDimensions, hw]
  · cases isTabletResult <;>
      simp [sizeMrecDimensions, adFormatSizeAfterMount, ADVIEW_SIZE]

/-- C2 witness: the theorem evaluated at an auto width with a concrete
requested height, screen width 390, and an unresolved tablet query. -/
theorem C2_witness :
    (sizeBannerDimensions { width := some DimValue.auto, height := some (DimValue.px 50) }
        true 390 {} (fun w => w)).width = some (DimValue.px 390) ∧
    (sizeMrecDimensions DimValue.auto (DimValue.px 250)
        (adFormatSizeAfterMount AdFormat.MREC none)).width = some (DimValue.px 300) :=
  C2_width_substitution { width := some DimValue.auto, height := some (DimValue.px 50) }
    true 390 {} (fun w => w) (DimValue.px 250) none rfl

/-- C3: when both requested dimensions are concrete (not the auto
sentinel), both the banner resolution and the MREC resolution return
them unchanged, for every adaptive flag, screen width, cached format
default, and adaptive-height query. -/
theorem C3_concrete_passthrough (w h : DimValue) (adaptive : Bool)
    (screenWidth : Int) (formatSize : SizeRecord) (q : Int → Int)
    (hw : w ≠ DimValue.auto) (hh : h ≠ DimValue.auto) :
    sizeBannerDimensions { width := some w, height := some h } adaptive screenWidth
        formatSize q = { width := some w, height := some h } ∧
    sizeMrecDimensions w h formatSize = { width := some w, height := some h } := by
  constructor
  · simp [sizeBannerDimensions, hw, hh]
  · simp [sizeMrecDimensions, hw, hh]

/-- C3 witness: the theorem evaluated at the concrete pair (111 pixels,
40 percent) with adaptive enabled on a 999-wide screen. -/
theorem C3_witness :
    sizeBannerDimensions { width := some (DimValue.px 111), height := some (DimValue.pct 40) }
        true 999 {} (fun w => w) =
      { width := some (DimValue.px 111), height := some (DimValue.pct 40) } ∧
    sizeMrecDimensions (DimValue.px 111) (DimValue.pct 40) {} =
      { width := some (DimValue.px 111), height := some (DimValue.pct 40) } :=
  C3_concrete_passthrough (DimValue.px 111) (DimValue.pct 40) true 999 {} (fun w => w)
    (by decide) (by decide)

/-- C4: for a banner with adaptive banners disabled and height
unspecified, once the tablet query has resolved, the resolved height is
the format-default height: 90 on a tablet and 50 on a phone; and the
format-default table is BANNER 320x50 on phones, 728x90 on tablets, and
MREC 300x250 always. -/
theorem C4_static_default_height (sizeProps : SizeRecord) (screenWidth : Int)
    (q : Int → Int) (tablet : Bool)
    (hh : sizeProps.height = some DimValue.auto) :
    (sizeBannerDimensions sizeProps false screenWidth
        (adFormatSizeAfterMount AdFormat.BANNER (some tablet)) q).height =
      some (DimValue.px (if tablet then 90 else 50)) ∧
    adFormatSizeAfterMount AdFormat.BANNER (some true) =
      { width := some (DimValue.px 728), height := some (DimValue.px 90) } ∧
    adFormatSizeAfterMount AdFormat.BANNER (some false) =
      { width := some (DimValue.px 320), height := some (DimValue.px 50) } ∧
    (∀ t : Option Bool, adFormatSizeAfterMount AdFormat.MREC t =
      { width := some (DimValue.px 300), height := some (DimValue.px 250) }) := by
  refine ⟨?_, rfl, rfl, ?_⟩
  · cases tablet <;>
      simp [sizeBannerDimensions, adFormatSizeAfterMount, ADVIEW_SIZE, hh]
  · intro t
    cases t <;> rfl

/-- C4 witness: the theorem evaluated at an auto-height style on a
tablet with screen width 800. -/
theorem C4_witness :
    (sizeBannerDimensions { width := some (DimValue.px 728), height := some DimValue.auto }
        false 800 (adFormatSizeAfterMount AdFormat.BANNER (some true)) (fun w => w)).height =
      some (DimValue.px (if true then 90 else 50)) :=
  (C4_static_default_height { width := some (DimValue.px 728), height := some DimValue.auto }
    800 (fun w => w) true rfl).1

/-- C5: counterexample. On the MREC path the host is notified (the
outcome is notifyHost, i.e. forceUpdate runs) even though the newly
resolved pair (300, 250) is equal by value to the previously resolved
pair: the style changed from fully auto to the explicit 300 by 250, the
resolved dimensions are unchanged, and yet a re-render is forced, so the
resolved pair is not what gates the notification on the MREC path. -/
theorem C5_counterexample :
    sizingEffect AdFormat.MREC true 390 (some (DimValue.px 300)) (some (DimValue.px 250))
      { adFormatSize := adFormatSizeAfterMount AdFormat.MREC none,
        initDone := true,
        sizeProps := { width := some DimValue.auto, height := some DimValue.auto },
        dimensions := some { width := some (DimValue.px 300), height := some (DimValue.px 250) } } =
    ({ adFormatSize := adFormatSizeAfterMount AdFormat.MREC none,
       initDone := true,
       sizeProps := { width := some (DimValue.px 300), height := some (DimValue.px 250) },
       dimensions := some { width := some (DimValue.px 300), height := some (DimValue.px 250) } },
     SizingOutcome.notifyHost) := by
  rfl

/-- C5 (amended): the value comparison of the newly resolved pair
against the previously resolved pair gates the notification only on the
BANNER path (the response callback notifies exactly when some field
differs); on the MREC path the host is notified whenever the pass runs
to completion. Running the sizing pass twice with identical inputs never
triggers a second notification on either path, because the pass
short-circuits when the requested style size is unchanged. -/
theorem C5_notification_gating :
    (∀ (st : AdViewState) (adaptedSize : SizeRecord),
      (handleBannerResponse st adaptedSize).2 = true ↔
        (st.dimensions.bind SizeRecord.width ≠ adaptedSize.width ∨
         st.dimensions.bind SizeRecord.height ≠ adaptedSize.height)) ∧
    (∀ (adFormat : AdFormat) (adaptive : Bool) (screenWidth : Int)
       (styleWidth styleHeight : Option DimValue) (st : AdViewState),
      sizingEffect adFormat adaptive screenWidth styleWidth styleHeight
          (sizingEffect adFormat adaptive screenWidth styleWidth styleHeight st).1 =
        ((sizingEffect adFormat adaptive screenWidth styleWidth styleHeight st).1,
         SizingOutcome.skip)) := by
  constructor
  · intro st adaptedSize
    by_cases hcond : st.dimensions.bind SizeRecord.width ≠ adaptedSize.width ∨
        st.dimensions.bind SizeRecord.height ≠ adaptedSize.height
    · simp [handleBannerResponse, hcond]
    · simp [handleBannerResponse, hcond]
  · intro adFormat adaptive screenWidth styleWidth styleHeight st
    obtain ⟨fs, init, sp, dims, ref⟩ := st
    cases init
    · simp [sizingEffect]
    · by_cases hsz : sp.width = some (getOutlineViewSize styleWidth styleHeight).1 ∧
          sp.height = some (getOutlineViewSize styleWidth styleHeight).2
      · simp [sizingEffect, hsz]
      · cases adFormat <;> simp [sizingEffect, hsz]

/-- C5 witness: the second run of an identical banner sizing pass on a
fresh initialized state skips and leaves the state unchanged. -/
theorem C5_witness :
    sizingEffect AdFormat.BANNER true 390 none none
        (sizingEffect AdFormat.BANNER true 390 none none { initDone := true }).1 =
      ((sizingEffect AdFormat.BANNER true 390 none none { initDone := true }).1,
       SizingOutcome.skip) :=
  C5_notification_gating.2 AdFormat.BANNER true 390 none none { initDone := true }

/-- C6: counterexample. A reachable state of a mounted banner component
(initialization reported true, sizing pass run before the tablet query
resolved, banner response applied) stores a resolved size whose height
field is unspecified (none, the JavaScript value undefined), and the
render body nevertheless renders the native view with it, because the
render gate only tests that the dimensions object is non-empty, not that
its fields are specified. -/
theorem C6_counterexample :
    handleInitResult ({} : AdViewState) true = ({ initDone := true }, false) ∧
    sizingEffect AdFormat.BANNER false 390 none none { initDone := true } =
      ({ initDone := true,
         sizeProps := { width := some DimValue.auto, height := some DimValue.auto } },
       SizingOutcome.request
         { sizeProps := { width := some DimValue.auto, height := some DimValue.auto },
           adaptiveBannerEnabled := false, screenWidth := 390,
           bannerFormatSize := {} }) ∧
    bannerResponseSize
        { sizeProps := { width := some DimValue.auto, height := some DimValue.auto },
          adaptiveBannerEnabled := false, screenWidth := 390, bannerFormatSize := {} }
        (fun w => w) =
      { width := some (DimValue.px 390), height := none } ∧
    handleBannerResponse
        { initDone := true,
          sizeProps := { width := some DimValue.auto, height := some DimValue.auto } }
        { width := some (DimValue.px 390), height := none } =
      ({ initDone := true,
         sizeProps := { width := some DimValue.auto, height := some DimValue.auto },
         dimensions := some { width := some (DimValue.px 390), height := none } },
       true) ∧
    renderOutput
        { initDone := true,
          sizeProps := { width := some DimValue.auto, height := some DimValue.auto },
          dimensions := some { width := some (DimValue.px 390), height := none } } =
      some { width := some (DimValue.px 390), height := none } ∧
    ({ width := some (DimValue.px 390), height := none } : SizeRecord).height = none :=
  ⟨rfl, rfl, rfl, rfl, rfl, rfl⟩

/-- C6 (amended): the native view is rendered exactly when the
initialization query has reported true and a dimensions record has been
stored (a non-empty object); the stored record may still contain an
unspecified height when the banner format-default query has not yet
resolved, and is rendered nonetheless. Before both gates hold the render
output is nothing (null), not an error; when the initialization query
reports false, the warning is logged, the stored flag stays false, the
sizing pass is a no-op, and nothing retries the query. -/
theorem C6_render_gating (st : AdViewState) :
    ((renderOutput st).isSome ↔ st.initDone = true ∧ st.dimensions.isSome) ∧
    handleInitResult st false = ({ st with initDone := false }, true) ∧
    (st.initDone = false → renderOutput st = none) ∧
    (∀ (adFormat : AdFormat) (adaptive : Bool) (screenWidth : Int)
       (styleWidth styleHeight : Option DimValue),
      st.initDone = false →
        sizingEffect adFormat adaptive screenWidth styleWidth styleHeight st =
          (st, SizingOutcome.skip)) := by
  refine ⟨?_, rfl, ?_, ?_⟩
  · rcases hd : st.dimensions with _ | d <;> cases hinit : st.initDone <;>
      simp [renderOutput, hinit, hd]
  · intro h
    simp [renderOutput, h]
  · intro adFormat adaptive screenWidth styleWidth styleHeight h
    simp [sizingEffect, h]

/-- C6 witness: the theorem evaluated at the fresh uninitialized state:
the render output is nothing and a sizing pass is a no-op. -/
theorem C6_witness :
    renderOutput ({} : AdViewState) = none ∧
    sizingEffect AdFormat.BANNER true 390 none none ({} : AdViewState) =
      (({} : AdViewState), SizingOutcome.skip) :=
  ⟨(C6_render_gating {}).2.2.1 rfl,
   (C6_render_gating {}).2.2.2 AdFormat.BANNER true 390 none none rfl⟩

/-- C7: counterexample, with adaptive banners enabled throughout. A
sizing pass for the fully auto style issues request A; because its
height is auto and adaptive banners are enabled, evaluating A awaits the
native adaptive-height query (here the service answering width plus 25),
so A stays outstanding across tasks. While A's query is outstanding the
style changes to the concrete 200 by 60 and a later pass issues request
B, superseding A; B's height is concrete, so B never consults the
adaptive-height service (shown below by evaluating B under two different
services) and its promise settles at once: B's callback runs first and
stores (200, 60). When the native query then answers, the response to
the superseded request A is NOT discarded: the callback carries no
request identity and no unmount guard, so it overwrites the stored
dimensions with the stale adaptive pair (390, 415) and forces a
re-render (the callback returns true). -/
theorem C7_counterexample :
    sizingEffect AdFormat.BANNER true 390 none none
        { adFormatSize := { width := some (DimValue.px 320), height := some (DimValue.px 50) },
          initDone := true } =
      ({ adFormatSize := { width := some (DimValue.px 320), height := some (DimValue.px 50) },
         initDone := true,
         sizeProps := { width := some DimValue.auto, height := some DimValue.auto } },
       SizingOutcome.request
         { sizeProps := { width := some DimValue.auto, height := some DimValue.auto },
           adaptiveBannerEnabled := true, screenWidth := 390,
           bannerFormatSize := { width := some (DimValue.px 320), height := some (DimValue.px 50) } }) ∧
    sizingEffect AdFormat.BANNER true 390 (some (DimValue.px 200)) (some (DimValue.px 60))
        { adFormatSize := { width := some (DimValue.px 320), height := some (DimValue.px 50) },
          initDone := true,
          sizeProps := { width := some DimValue.auto, height := some DimValue.auto } } =
      ({ adFormatSize := { width := some (DimValue.px 320), height := some (DimValue.px 50) },
         initDone := true,
         sizeProps := { width := some (DimValue.px 200), height := some (DimValue.px 60) } },
       SizingOutcome.request
         { sizeProps := { width := some (DimValue.px 200), height := some (DimValue.px 60) },
           adaptiveBannerEnabled := true, screenWidth := 390,
           bannerFormatSize := { width := some (DimValue.px 320), height := some (DimValue.px 50) } }) ∧
    bannerResponseSize
        { sizeProps := { width := some (DimValue.px 200), height := some (DimValue.px 60) },
          adaptiveBannerEnabled := true, screenWidth := 390,
          bannerFormatSize := { width := some (DimValue.px 320), height := some (DimValue.px 50) } }
        (fun w => w + 25) =
      { width := some (DimValue.px 200), height := some (DimValue.px 60) } ∧
    bannerResponseSize
        { sizeProps := { width := some (DimValue.px 200), height := some (DimValue.px 60) },
          adaptiveBannerEnabled := true, screenWidth := 390,
          bannerFormatSize := { width := some (DimValue.px 320), height := some (DimValue.px 50) } }
        (fun _ => 0) =
      { width := some (DimValue.px 200), height := some (DimValue.px 60) } ∧
    bannerResponseSize
        { sizeProps := { width := some DimValue.auto, height := some DimValue.auto },
          adaptiveBannerEnabled := true, screenWidth := 390,
          bannerFormatSize := { width := some (DimValue.px 320), height := some (DimValue.px 50) } }
        (fun w => w + 25) =
      { width := some (DimValue.px 390), height := some (DimValue.px 415) } ∧
    handleBannerResponse
        { adFormatSize := { width := some (DimValue.px 320), height := some (DimValue.px 50) },
          initDone := true,
          sizeProps := { width := some (DimValue.px 200), height := some (DimValue.px 60) } }
        { width := some (DimValue.px 200), height := some (DimValue.px 60) } =
      ({ adFormatSize := { width := some (DimValue.px 320), height := some (DimValue.px 50) },
         initDone := true,
         sizeProps := { width := some (DimValue.px 200), height := some (DimValue.px 60) },
         dimensions := some { width := some (DimValue.px 200), height := some (DimValue.px 60) } },
       true) ∧
    handleBannerResponse
        { adFormatSize := { width := some (DimValue.px 320), height := some (DimValue.px 50) },
          initDone := true,
          sizeProps := { width := some (DimValue.px 200), height := some (DimValue.px 60) },
          dimensions := some { width := some (DimValue.px 200), height := some (DimValue.px 60) } }
        { width := some (DimValue.px 390), height := some (DimValue.px 415) } =
      ({ adFormatSize := { width := some (DimValue.px 320), height := some (DimValue.px 50) },
         initDone := true,
         sizeProps := { width := some (DimValue.px 200), height := some (DimValue.px 60) },
         dimensions := some { width := some (DimValue.px 390), height := some (DimValue.px 415) } },
       true) ∧
    ({ width := some (DimValue.px 390), height := some (DimValue.px 415) } : SizeRecord) ≠
      { width := some (DimValue.px 200), height := some (DimValue.px 60) } := by
  refine ⟨rfl, rfl, rfl, rfl, rfl, rfl, rfl, ?_⟩
  decide

/-- C7 (amended): late adaptive-height responses are not discarded. The
response callback carries no request identity and no unmount guard: any
arriving response — including one belonging to a superseded request —
overwrites the stored dimensions and forces a re-render whenever it
differs by value from the currently stored pair, so the last response to
arrive wins, not the last request issued. -/
theorem C7_stale_response_overwrites (st : AdViewState) (adaptedSize : SizeRecord)
    (h : st.dimensions.bind SizeRecord.width ≠ adaptedSize.width ∨
         st.dimensions.bind SizeRecord.height ≠ adaptedSize.height) :
    handleBannerResponse st adaptedSize = ({ st with dimensions := some adaptedSize }, true) := by
  unfold handleBannerResponse
  rw [if_pos h]

/-- C7 witness: a response differing from the stored dimensions of the
fresh state overwrites them and forces a re-render. -/
theorem C7_witness :
    handleBannerResponse ({} : AdViewState)
        { width := some (DimValue.px 1), height := some (DimValue.px 2) } =
      ({ dimensions := some { width := some (DimValue.px 1), height := some (DimValue.px 2) } },
       true) :=
  C7_stale_response_overwrites {} { width := some (DimValue.px 1), height := some (DimValue.px 2) }
    (by decide)

/-- C8: preloadNativeUIComponentAdView calls the native module with the
ad unit id, the format, and the four option fields (optional chaining on
the absent record yielding none) and returns the native result as-is;
destroyNativeUIComponentAdView calls the native module with the ad unit
id and returns its result as-is. Consequently a rejection produced by
the native module is propagated unchanged to the caller, with no retry
and no local recovery. -/
theorem C8_passthrough
    (nativePreload : String → AdFormat → Option String → Option String →
      Option (List (String × String)) → Option (List (String × String)) →
      Except String Unit)
    (nativeDestroy : String → Except String Unit)
    (adUnitId : String) (adFormat : AdFormat)
    (options : Option NativeUIComponentAdViewOptions) (e : String) :
    preloadNativeUIComponentAdView nativePreload adUnitId adFormat options =
      nativePreload adUnitId adFormat
        (options.bind NativeUIComponentAdViewOptions.placement)
        (options.bind NativeUIComponentAdViewOptions.customData)
        (options.bind NativeUIComponentAdViewOptions.extraParameters)
        (options.bind NativeUIComponentAdViewOptions.localExtraParameters) ∧
    destroyNativeUIComponentAdView nativeDestroy adUnitId = nativeDestroy adUnitId ∧
    (nativePreload adUnitId adFormat
        (options.bind NativeUIComponentAdViewOptions.placement)
        (options.bind NativeUIComponentAdViewOptions.customData)
        (options.bind NativeUIComponentAdViewOptions.extraParameters)
        (options.bind NativeUIComponentAdViewOptions.localExtraParameters) =
        Except.error e →
      preloadNativeUIComponentAdView nativePreload adUnitId adFormat options =
        Except.error e) ∧
    (nativeDestroy adUnitId = Except.error e →
      destroyNativeUIComponentAdView nativeDestroy adUnitId = Except.error e) := by
  exact ⟨rfl, rfl, fun h => h, fun h => h⟩

/-- C8 witness: with a native module that rejects every call, both
passthrough functions surface the rejection unchanged. -/
theorem C8_witness :
    preloadNativeUIComponentAdView
        (fun _ _ _ _ _ _ => Except.error "native failure") "unit-1" AdFormat.BANNER none =
      Except.error "native failure" ∧
    destroyNativeUIComponentAdView (fun _ => Except.error "native failure") "unit-1" =
      Except.error "native failure" :=
  ⟨(C8_passthrough (fun _ _ _ _ _ _ => Except.error "native failure")
      (fun _ => Except.error "native failure") "unit-1" AdFormat.BANNER none
      "native failure").2.2.1 rfl,
   (C8_passthrough (fun _ _ _ _ _ _ => Except.error "native failure")
      (fun _ => Except.error "native failure") "unit-1" AdFormat.BANNER none
      "native failure").2.2.2 rfl⟩

/-- C9: there is a reachable execution of a mounted banner component —
initialization reported true, adaptive banners disabled, requested
height unspecified, the tablet query still outstanding so the
format-default record is still empty — in which the banner resolution
completes with an unspecified (none / undefined) height; the resulting
record is stored in the dimensions ref and the render body renders the
native view with that non-concrete height. -/
theorem C9_unspecified_height_reachable :
    adFormatSizeAfterMount AdFormat.BANNER none = ({} : SizeRecord) ∧
    (handleInitResult ({} : AdViewState) true).1 = { initDone := true } ∧
    sizingEffect AdFormat.BANNER false 414 none none { initDone := true } =
      ({ initDone := true,
         sizeProps := { width := some DimValue.auto, height := some DimValue.auto } },
       SizingOutcome.request
         { sizeProps := { width := some DimValue.auto, height := some DimValue.auto },
           adaptiveBannerEnabled := false, screenWidth := 414,
           bannerFormatSize := {} }) ∧
    bannerResponseSize
        { sizeProps := { width := some DimValue.auto, height := some DimValue.auto },
          adaptiveBannerEnabled := false, screenWidth := 414, bannerFormatSize := {} }
        (fun w => w) =
      { width := some (DimValue.px 414), height := none } ∧
    handleBannerResponse
        { initDone := true,
          sizeProps := { width := some DimValue.auto, height := some DimValue.auto } }
        { width := some (DimValue.px 414), height := none } =
      ({ initDone := true,
         sizeProps := { width := some DimValue.auto, height := some DimValue.auto },
         dimensions := some { width := some (DimValue.px 414), height := none } },
       true) ∧
    renderOutput
        { initDone := true,
          sizeProps := { width := some DimValue.auto, height := some DimValue.auto },
          dimensions := some { width := some (DimValue.px 414), height := none } } =
      some { width := some (DimValue.px 414), height := none } :=
  ⟨rfl, rfl, rfl, rfl, rfl, rfl⟩

/-- C10: a call of the imperative loadAd handle while no native view
reference has been saved (the component still renders nothing) is a
silent no-op: no view-manager command is dispatched and the component
state is returned unchanged; moreover saveElement invoked with a null
element leaves the state unchanged as well. -/
theorem C10_loadAd_noop (st : AdViewState) (h : st.adViewRef = none) :
    loadAd st = (st, none) ∧ saveElement st none = st := by
  constructor
  · simp [loadAd, h]
  · rfl

/-- C10 witness: loadAd on the fresh state dispatches nothing and
changes nothing. -/
theorem C10_witness :
    loadAd ({} : AdViewState) = (({} : AdViewState), none) ∧
    saveElement ({} : AdViewState) none = ({} : AdViewState) :=
  C10_loadAd_noop {} rfl
